import Mathlib

/-!
Verification of the plot-export engine of `packages/studio-base/src/panels/Plot/csv.ts`:
the CSV table encoder (`generateCSV`), the SVG vector renderer (`generateSVG`) and the
download wrappers (`downloadCSV` / `downloadSVG`).

JavaScript numbers are modelled by `JSNum`: an exact rational for every finite value,
plus the special values `Infinity`, `-Infinity` and `NaN`.  The arithmetic cases that
matter to the program (finite arithmetic, division by zero producing infinities,
`0 * Infinity = NaN`, `NaN` propagation, `NaN`-propagating `Math.min`/`Math.max`) follow
the JavaScript evaluation rules; finite arithmetic is exact rather than 64-bit rounded.
Number-to-string conversion is modelled exactly for integral and non-finite values,
which are the only values the concrete scenarios exercise.
-/

/-- Model of a JavaScript `number`: a finite (exact) rational, `Infinity`,
`-Infinity`, or `NaN`. -/
inductive JSNum where
  | num (q : ℚ)
  | nan
  | inf
  | negInf
deriving DecidableEq, Repr

/-- JavaScript addition. -/
def JSNum.add : JSNum → JSNum → JSNum
  | .nan, _ => .nan
  | _, .nan => .nan
  | .inf, .negInf => .nan
  | .negInf, .inf => .nan
  | .inf, _ => .inf
  | _, .inf => .inf
  | .negInf, _ => .negInf
  | _, .negInf => .negInf
  | .num a, .num b => .num (a + b)

/-- JavaScript negation. -/
def JSNum.neg : JSNum → JSNum
  | .nan => .nan
  | .inf => .negInf
  | .negInf => .inf
  | .num a => .num (-a)

/-- JavaScript subtraction (`a - b` behaves as `a + (-b)`). -/
def JSNum.sub (a b : JSNum) : JSNum := a.add b.neg

/-- JavaScript multiplication (`0 * Infinity = NaN`). -/
def JSNum.mul : JSNum → JSNum → JSNum
  | .nan, _ => .nan
  | _, .nan => .nan
  | .inf, .inf => .inf
  | .inf, .negInf => .negInf
  | .negInf, .inf => .negInf
  | .negInf, .negInf => .inf
  | .inf, .num b => if b = 0 then .nan else if 0 < b then .inf else .negInf
  | .num a, .inf => if a = 0 then .nan else if 0 < a then .inf else .negInf
  | .negInf, .num b => if b = 0 then .nan else if 0 < b then .negInf else .inf
  | .num a, .negInf => if a = 0 then .nan else if 0 < a then .negInf else .inf
  | .num a, .num b => .num (a * b)

/-- JavaScript division (`x / 0` is `±Infinity` for `x ≠ 0` and `NaN` for `0 / 0`). -/
def JSNum.div : JSNum → JSNum → JSNum
  | .nan, _ => .nan
  | _, .nan => .nan
  | .inf, .inf => .nan
  | .inf, .negInf => .nan
  | .negInf, .inf => .nan
  | .negInf, .negInf => .nan
  | .inf, .num b => if 0 ≤ b then .inf else .negInf
  | .negInf, .num b => if 0 ≤ b then .negInf else .inf
  | .num _, .inf => .num 0
  | .num _, .negInf => .num 0
  | .num a, .num b =>
      if b = 0 then (if a = 0 then .nan else if 0 < a then .inf else .negInf)
      else .num (a / b)

instance : Add JSNum := ⟨JSNum.add⟩

instance : Sub JSNum := ⟨JSNum.sub⟩

instance : Mul JSNum := ⟨JSNum.mul⟩

instance : Div JSNum := ⟨JSNum.div⟩

instance : Neg JSNum := ⟨JSNum.neg⟩

/-- JavaScript `Math.min` on two arguments (`NaN` absorbs). -/
def JSNum.min2 : JSNum → JSNum → JSNum
  | .nan, _ => .nan
  | _, .nan => .nan
  | .negInf, _ => .negInf
  | _, .negInf => .negInf
  | .inf, b => b
  | a, .inf => a
  | .num a, .num b => if a ≤ b then .num a else .num b

/-- JavaScript `Math.max` on two arguments (`NaN` absorbs). -/
def JSNum.max2 : JSNum → JSNum → JSNum
  | .nan, _ => .nan
  | _, .nan => .nan
  | .inf, _ => .inf
  | _, .inf => .inf
  | .negInf, b => b
  | a, .negInf => a
  | .num a, .num b => if a ≤ b then .num b else .num a

/-- JavaScript `Math.ceil`. -/
def JSNum.ceil : JSNum → JSNum
  | .nan => .nan
  | .inf => .inf
  | .negInf => .negInf
  | .num q => .num (⌈q⌉ : ℤ)

/-- Truncation toward zero, as used by the JavaScript `%` operator. -/
def ratTrunc (q : ℚ) : ℤ := if 0 ≤ q then ⌊q⌋ else ⌈q⌉

/-- JavaScript remainder operator `%` (`a % 0 = NaN`, sign follows the dividend). -/
def JSNum.mod : JSNum → JSNum → JSNum
  | .nan, _ => .nan
  | _, .nan => .nan
  | .inf, _ => .nan
  | .negInf, _ => .nan
  | .num a, .inf => .num a
  | .num a, .negInf => .num a
  | .num a, .num b =>
      if b = 0 then .nan else .num (a - b * (ratTrunc (a / b) : ℚ))

/-- JavaScript strict equality `===` on numbers: `NaN` is equal to nothing. -/
def JSNum.jsEq : JSNum → JSNum → Bool
  | .nan, _ => false
  | _, .nan => false
  | .num a, .num b => a = b
  | .inf, .inf => true
  | .negInf, .negInf => true
  | _, _ => false

/-- JavaScript number-to-string conversion, exact on integral and non-finite
values (the only values the concrete scenarios produce); other exact rationals
are rendered as `num/den`, standing in for the shortest-round-trip decimal. -/
def jsNumToString : JSNum → String
  | .nan => "NaN"
  | .inf => "Infinity"
  | .negInf => "-Infinity"
  | .num q => if q.den = 1 then toString q.num else toString q.num ++ "/" ++ toString q.den

/-- Left-pad a digit string with zeros up to width `f`. -/
def padZeros (f : ℕ) (s : String) : String :=
  String.mk (List.replicate (f - s.length) '0') ++ s

/-- Render the integer `n` (standing for a value scaled by `10 ^ f`) with a decimal
point before its last `f` digits, as `Number.prototype.toFixed` does. -/
def fixedOfInt (f : ℕ) (n : ℤ) : String :=
  let sign := if n < 0 then "-" else ""
  let m := n.natAbs
  if f = 0 then sign ++ toString (m / 10 ^ f)
  else sign ++ toString (m / 10 ^ f) ++ "." ++ padZeros f (toString (m % 10 ^ f))

/-- JavaScript `toFixed(f)`: round to `f` decimal digits, ties toward the larger
scaled integer, matching the ECMAScript specification of `toFixed`. -/
def JSNum.toFixed (f : ℕ) : JSNum → String
  | .nan => "NaN"
  | .inf => "Infinity"
  | .negInf => "-Infinity"
  | .num q => fixedOfInt f ⌊q * 10 ^ f + 1 / 2⌋

/-- JavaScript `Array.prototype.join(sep)`. -/
def arrayJoin (sep : String) : List String → String
  | [] => ""
  | [a] => a
  | a :: rest => a ++ sep ++ arrayJoin sep rest

/-- Concatenation of the strings produced from each list element, mirroring a
`for`-loop that appends to an accumulator. -/
def concatMapStr (f : α → String) : List α → String
  | [] => ""
  | a :: rest => f a ++ concatMapStr f rest

/-- Modelled from the spec: `Time` (from `@foxglove/studio-base/util/time`, not part
of the analysed sources) is an opaque timestamp structure formattable to a raw
numeric string; we carry that rendering directly. -/
structure Time where
  raw : String
deriving DecidableEq, Repr

/-- Modelled from the spec: the external time-formatting collaborator
`formatTimeRaw(Time) -> string`. -/
def formatTimeRaw (t : Time) : String := t.raw

/-- A `Datum.value`: `number | string`. -/
inductive JSValue where
  | num (n : JSNum)
  | str (s : String)
deriving DecidableEq, Repr

/-- A plotted sample (`Datum` of `internalTypes`), as consumed by `csv.ts`. -/
structure Datum where
  x : JSNum
  y : JSNum
  value : JSValue
  receiveTime : Time
  headerStamp : Option Time
deriving DecidableEq, Repr

/-- A labeled point series (`DataSet` of `internalTypes`), as consumed by `csv.ts`. -/
structure DataSet where
  label : Option String
  data : List Datum
deriving DecidableEq, Repr

/-- One cell of a CSV row: a number, a string, or JavaScript `undefined`
(an absent label), which `Array.prototype.join` renders as the empty string. -/
inductive CSVField where
  | num (n : JSNum)
  | str (s : String)
  | undef
deriving DecidableEq, Repr

/-- How `Array.prototype.join` converts one cell to text. -/
def csvFieldToString : CSVField → String
  | .num n => jsNumToString n
  | .str s => s
  | .undef => ""

/-- Coerce a `Datum.value` into a CSV cell. -/
def JSValue.toField : JSValue → CSVField
  | .num n => CSVField.num n
  | .str s => CSVField.str s

/-- `getCSVRow` from `csv.ts`: one data row
`[x, formatTimeRaw(receiveTime), headerStamp ? formatTimeRaw(headerStamp) : "", label, value]`. -/
def getCSVRow (label : Option String) (data : Datum) : List CSVField :=
  let receiveTimeFloat := formatTimeRaw data.receiveTime
  let stampTime := match data.headerStamp with
    | some h => formatTimeRaw h
    | none => ""
  [CSVField.num data.x, CSVField.str receiveTimeFloat, CSVField.str stampTime,
   (match label with | some l => CSVField.str l | none => CSVField.undef),
   data.value.toField]

/-- `getCVSColName` from `csv.ts`: the object-literal lookup
`{timestamp, index, custom, currentCustom}[xAxisVal]`, which yields `undefined`
(`none`) for any other runtime string. -/
def getCVSColName (xAxisVal : String) : Option String :=
  if xAxisVal = "timestamp" then some "elapsed time"
  else if xAxisVal = "index" then some "index"
  else if xAxisVal = "custom" then some "x value"
  else if xAxisVal = "currentCustom" then some "x value"
  else none

/-- The header row of `generateCSV`. -/
def headLine (xAxisVal : String) : List CSVField :=
  [(match getCVSColName xAxisVal with | some s => CSVField.str s | none => CSVField.undef),
   CSVField.str "receive time", CSVField.str "header.stamp", CSVField.str "topic",
   CSVField.str "value"]

/-- The data rows accumulated by `generateCSV`'s nested loops: datasets in input
order, and inside each dataset its points in input order. -/
def csvDataRows (datasets : List DataSet) : List (List CSVField) :=
  (datasets.map (fun dataset => dataset.data.map (getCSVRow dataset.label))).flatten

/-- `combinedLines` of `generateCSV`: the header row followed by all data rows. -/
def csvCombinedLines (datasets : List DataSet) (xAxisVal : String) : List (List CSVField) :=
  headLine xAxisVal :: csvDataRows datasets

/-- `Array.prototype.join(",")` applied to one row, as done implicitly when the
row array is converted to a string by `combinedLines.join("\n")`. -/
def rowToString (row : List CSVField) : String :=
  arrayJoin "," (row.map csvFieldToString)

/-- `generateCSV` from `csv.ts`: `combinedLines.join("\n")`. -/
def generateCSV (datasets : List DataSet) (xAxisVal : String) : String :=
  arrayJoin "\n" ((csvCombinedLines datasets xAxisVal).map rowToString)

/-- Canvas width constant of `generateSVG`. -/
def svgWidth : ℚ := 500

/-- Canvas height constant of `generateSVG`. -/
def svgHeight : ℚ := 500

/-- Margin constant of `generateSVG`. -/
def margin : ℚ := 40

/-- Tick-mark length constant of `generateSVG`. -/
def tickSize : ℚ := 5

/-- Maximum rendered points per dataset in `generateSVG`. -/
def maxPoints : ℚ := 1000

/-- The `xMin` range accumulation of `generateSVG`:
starting from `Infinity`, fold `Math.min` over the `x` of every datum of every dataset. -/
def computeXMin (datasets : List DataSet) : JSNum :=
  datasets.foldl
    (fun acc dataset => (dataset.data.map (fun datum => datum.x)).foldl JSNum.min2 acc)
    JSNum.inf

/-- The `xMax` range accumulation of `generateSVG`. -/
def computeXMax (datasets : List DataSet) : JSNum :=
  datasets.foldl
    (fun acc dataset => (dataset.data.map (fun datum => datum.x)).foldl JSNum.max2 acc)
    JSNum.negInf

/-- The `yMin` range accumulation of `generateSVG`. -/
def computeYMin (datasets : List DataSet) : JSNum :=
  datasets.foldl
    (fun acc dataset => (dataset.data.map (fun datum => datum.y)).foldl JSNum.min2 acc)
    JSNum.inf

/-- The `yMax` range accumulation of `generateSVG`. -/
def computeYMax (datasets : List DataSet) : JSNum :=
  datasets.foldl
    (fun acc dataset => (dataset.data.map (fun datum => datum.y)).foldl JSNum.max2 acc)
    JSNum.negInf

/-- `xScale = (svgWidth - margin * 2) / (xMax - xMin)` of `generateSVG`. -/
def xScaleOf (datasets : List DataSet) : JSNum :=
  (JSNum.num svgWidth - JSNum.num margin * JSNum.num 2) /
    (computeXMax datasets - computeXMin datasets)

/-- `yScale = (svgHeight - margin * 2) / (yMax - yMin)` of `generateSVG`. -/
def yScaleOf (datasets : List DataSet) : JSNum :=
  (JSNum.num svgHeight - JSNum.num margin * JSNum.num 2) /
    (computeYMax datasets - computeYMin datasets)

/-- The horizontal canvas coordinate of a kept point:
`margin + (x - xMin) * xScale`. -/
def mapX (xMin xScale x : JSNum) : JSNum :=
  JSNum.num margin + (x - xMin) * xScale

/-- The vertical canvas coordinate of a kept point:
`svgHeight - margin - (y - yMin) * yScale`. -/
def mapY (yMin yScale y : JSNum) : JSNum :=
  JSNum.num svgHeight - JSNum.num margin - (y - yMin) * yScale

/-- One `"px,py"` entry of the path data of `generateSVG`. -/
def pathPoint (xMin yMin xScale yScale : JSNum) (d : Datum) : String :=
  jsNumToString (mapX xMin xScale d.x) ++ "," ++ jsNumToString (mapY yMin yScale d.y)

/-- The per-dataset stride decimation of `generateSVG`:
`resampleFactor = Math.ceil(dataPoints / maxPoints)` and
`data.filter((_, index) => index % resampleFactor === 0)`. -/
def resampledData (data : List Datum) : List Datum :=
  let dataPoints : ℚ := data.length
  let resampleFactor := JSNum.ceil (JSNum.num dataPoints / JSNum.num maxPoints)
  (data.enum.filter
      (fun p => JSNum.jsEq (JSNum.mod (JSNum.num (p.1 : ℚ)) resampleFactor) (JSNum.num 0))).map
    Prod.snd

/-- The `<path>` element emitted for one dataset by `generateSVG`. -/
def datasetPath (xMin yMin xScale yScale : JSNum) (dataset : DataSet) : String :=
  let pathData :=
    arrayJoin " " ((resampledData dataset.data).map (pathPoint xMin yMin xScale yScale))
  "\n      <path\n        style=\"opacity:0.712203;fill:none;stroke:#000000;stroke-width:2px;stop-color:#000000\"\n        d=\"M" ++ pathData ++ "\" />"

/-- The document header of `generateSVG` (XML declaration, `<svg>` opening tag,
`<defs>`). -/
def svgDocHeader : String :=
  "\n    <?xml version=\"1.0\" encoding=\"UTF-8\" standalone=\"no\"?>\n    <svg\n      width=\"" ++ toString svgWidth ++ "\"\n      height=\"" ++ toString svgHeight ++ "\"\n      version=\"1.1\"\n      id=\"svg6\"\n      xmlns=\"http://www.w3.org/2000/svg\"\n      xmlns:svg=\"http://www.w3.org/2000/svg\">\n      <defs id=\"defs10\" />"

/-- The x-axis line and label of `generateSVG`. -/
def xAxis : String :=
  "\n    <line\n      x1=\"" ++ toString margin ++ "\"\n      y1=\"" ++ toString (svgHeight - margin) ++ "\"\n      x2=\"" ++ toString (svgWidth - margin) ++ "\"\n      y2=\"" ++ toString (svgHeight - margin) ++ "\"\n      style=\"stroke:#000000;stroke-width:1\" />\n    <text\n      x=\"" ++ toString (svgWidth / 2) ++ "\"\n      y=\"" ++ toString (svgHeight - 5) ++ "\"\n      text-anchor=\"middle\"\n      dominant-baseline=\"hanging\"\n      style=\"fill:#000000;font-size:12px\">x</text>"

/-- `xTickSize = (svgWidth - margin * 2) / 10` of `generateSVG`. -/
def xTickSize : ℚ := (svgWidth - margin * 2) / 10

/-- The `i`-th x-axis tick mark and label of `generateSVG`. -/
def xTick (xMin xMax : JSNum) (i : ℕ) : String :=
  let xPos : ℚ := margin + (i : ℚ) * xTickSize
  "\n      <line\n        x1=\"" ++ toString xPos ++ "\"\n        y1=\"" ++ toString (svgHeight - margin) ++ "\"\n        x2=\"" ++ toString xPos ++ "\"\n        y2=\"" ++ toString (svgHeight - margin + tickSize) ++ "\"\n        style=\"stroke:#000000;stroke-width:1\" />\n      <text\n        x=\"" ++ toString xPos ++ "\"\n        y=\"" ++ toString (svgHeight - margin + tickSize + 10) ++ "\"\n        text-anchor=\"middle\"\n        dominant-baseline=\"hanging\"\n        style=\"fill:#000000;font-size:12px\">" ++ JSNum.toFixed 1 (xMin + (xMax - xMin) * JSNum.num ((i : ℚ) / 10)) ++ "</text>"

/-- The x-axis tick array of `generateSVG` (loop `for i in 0..10`). -/
def xTicks (xMin xMax : JSNum) : List String :=
  (List.range 11).map (xTick xMin xMax)

/-- The y-axis line and (rotated) label of `generateSVG`. -/
def yAxis : String :=
  "\n    <line\n      x1=\"" ++ toString margin ++ "\"\n      y1=\"" ++ toString margin ++ "\"\n      x2=\"" ++ toString margin ++ "\"\n      y2=\"" ++ toString (svgHeight - margin) ++ "\"\n      style=\"stroke:#000000;stroke-width:1\" />\n    <text\n      x=\"5\"\n      y=\"" ++ toString (svgHeight / 2) ++ "\"\n      text-anchor=\"start\"\n      dominant-baseline=\"middle\"\n      style=\"fill:#000000;font-size:12px;transform:rotate(-90deg);transform-origin:5px " ++ toString (svgHeight / 2) ++ "px;\">y</text>"

/-- `yTickSize = (svgHeight - margin * 2) / 10` of `generateSVG`. -/
def yTickSize : ℚ := (svgHeight - margin * 2) / 10

/-- The `i`-th y-axis tick mark and label of `generateSVG`. -/
def yTick (yMin yMax : JSNum) (i : ℕ) : String :=
  let yPos : ℚ := svgHeight - margin - (i : ℚ) * yTickSize
  "\n      <line\n        x1=\"" ++ toString (margin - tickSize) ++ "\"\n        y1=\"" ++ toString yPos ++ "\"\n        x2=\"" ++ toString margin ++ "\"\n        y2=\"" ++ toString yPos ++ "\"\n        style=\"stroke:#000000;stroke-width:1\" />\n      <text\n        x=\"" ++ toString (margin - tickSize - 5) ++ "\"\n        y=\"" ++ toString yPos ++ "\"\n        text-anchor=\"end\"\n        dominant-baseline=\"middle\"\n        style=\"fill:#000000;font-size:12px\">" ++ JSNum.toFixed 2 (yMin + (yMax - yMin) * JSNum.num ((i : ℚ) / 10)) ++ "</text>"

/-- The y-axis tick array of `generateSVG` (loop `for i in 0..10`). -/
def yTicks (yMin yMax : JSNum) : List String :=
  (List.range 11).map (yTick yMin yMax)

/-- The closing `</svg>` fragment of `generateSVG`. -/
def svgClose : String := "\n    </svg>"

/-- `generateSVG` from `csv.ts`: document header, x axis with ticks, y axis with
ticks, one `<path>` per dataset (appended in a loop), closing tag. -/
def generateSVG (datasets : List DataSet) : String :=
  let xMin := computeXMin datasets
  let xMax := computeXMax datasets
  let yMin := computeYMin datasets
  let yMax := computeYMax datasets
  let xScale := xScaleOf datasets
  let yScale := yScaleOf datasets
  svgDocHeader ++ (xAxis ++ arrayJoin "" (xTicks xMin xMax)) ++
    (yAxis ++ arrayJoin "" (yTicks yMin yMax)) ++
    concatMapStr (datasetPath xMin yMin xScale yScale) datasets ++ svgClose

/-- A `Blob` as constructed by the download wrappers: payload text plus MIME type. -/
structure Blob where
  content : String
  type : String
deriving DecidableEq, Repr

/-- One `{ blob, fileName }` item handed to the download sink. -/
structure DownloadFile where
  blob : Blob
  fileName : String
deriving DecidableEq, Repr

/-- Modelled from the spec: the external download sink (`downloadFiles` from
`@foxglove/studio-base/util/download`, not part of the analysed sources).  Each
call performs one platform save; we record the observable effect of a wrapper as
the list of sink invocations, each with the argument it received. -/
def downloadFiles (files : List DownloadFile) : List (List DownloadFile) :=
  [files]

/-- `downloadCSV` from `csv.ts`: encode, wrap in a `text/csv` blob named
`plot_data.csv`, and hand a single-item list to the sink. -/
def downloadCSV (datasets : List DataSet) (xAxisVal : String) : List (List DownloadFile) :=
  let csvData := generateCSV datasets xAxisVal
  let blob : Blob := { content := csvData, type := "text/csv;charset=utf-8;" }
  downloadFiles [{ blob := blob, fileName := "plot_data.csv" }]

/-- `downloadSVG` from `csv.ts`: render, wrap in an `image/svg+xml` blob named
`plot_data.svg`, and hand a single-item list to the sink. -/
def downloadSVG (datasets : List DataSet) : List (List DownloadFile) :=
  let svgData := generateSVG datasets
  let blob : Blob := { content := svgData, type := "image/svg+xml;charset=utf-8;" }
  downloadFiles [{ blob := blob, fileName := "plot_data.svg" }]

/-- Spec-side template of the `i`-th x tick, written from the specification's
words: tick position `margin + i * (drawableWidth / 10)` with
`drawableWidth = canvasWidth - 2 * margin`, label the interpolated data value
`xMin + (xMax - xMin) * (i / 10)` formatted to one decimal place. -/
def xTickSpec (xMin xMax : JSNum) (i : ℕ) : String :=
  let xPos : ℚ := margin + (i : ℚ) * ((svgWidth - 2 * margin) / 10)
  "\n      <line\n        x1=\"" ++ toString xPos ++ "\"\n        y1=\"" ++ toString (svgHeight - margin) ++ "\"\n        x2=\"" ++ toString xPos ++ "\"\n        y2=\"" ++ toString (svgHeight - margin + tickSize) ++ "\"\n        style=\"stroke:#000000;stroke-width:1\" />\n      <text\n        x=\"" ++ toString xPos ++ "\"\n        y=\"" ++ toString (svgHeight - margin + tickSize + 10) ++ "\"\n        text-anchor=\"middle\"\n        dominant-baseline=\"hanging\"\n        style=\"fill:#000000;font-size:12px\">" ++ JSNum.toFixed 1 (xMin + (xMax - xMin) * JSNum.num ((i : ℚ) / 10)) ++ "</text>"

/-- Spec-side template of the `i`-th y tick: label the interpolated data value
`yMin + (yMax - yMin) * (i / 10)` formatted to two decimal places. -/
def yTickSpec (yMin yMax : JSNum) (i : ℕ) : String :=
  let yPos : ℚ := svgHeight - margin - (i : ℚ) * ((svgHeight - 2 * margin) / 10)
  "\n      <line\n        x1=\"" ++ toString (margin - tickSize) ++ "\"\n        y1=\"" ++ toString yPos ++ "\"\n        x2=\"" ++ toString margin ++ "\"\n        y2=\"" ++ toString yPos ++ "\"\n        style=\"stroke:#000000;stroke-width:1\" />\n      <text\n        x=\"" ++ toString (margin - tickSize - 5) ++ "\"\n        y=\"" ++ toString yPos ++ "\"\n        text-anchor=\"end\"\n        dominant-baseline=\"middle\"\n        style=\"fill:#000000;font-size:12px\">" ++ JSNum.toFixed 2 (yMin + (yMax - yMin) * JSNum.num ((i : ℚ) / 10)) ++ "</text>"

/-- First point of the Scenario C input: `x = 5`, `y = 0`. -/
def degD1 : Datum :=
  { x := JSNum.num 5, y := JSNum.num 0, value := JSValue.num (JSNum.num 0),
    receiveTime := ⟨"1.000000000"⟩, headerStamp := none }

/-- Second point of the Scenario C input: `x = 5`, `y = 10`. -/
def degD2 : Datum :=
  { x := JSNum.num 5, y := JSNum.num 10, value := JSValue.num (JSNum.num 10),
    receiveTime := ⟨"2.000000000"⟩, headerStamp := none }

/-- The dataset of Scenario C: every point has the same `x` coordinate. -/
def degDataset : DataSet := { label := none, data := [degD1, degD2] }

/-- The degenerate input of Scenario C: a single dataset whose two points share
the same `x` coordinate, so the bounding box has zero width. -/
def degenerateInput : List DataSet := [degDataset]

/-- The input of Scenario A: one dataset with points at `x = 0` and `x = 10`. -/
def scenarioAInput : DataSet :=
  { label := some "topicA",
    data :=
      [{ x := JSNum.num 0, y := JSNum.num 0, value := JSValue.num (JSNum.num 0),
         receiveTime := ⟨"1.000000000"⟩, headerStamp := none },
       { x := JSNum.num 10, y := JSNum.num 10, value := JSValue.num (JSNum.num 10),
         receiveTime := ⟨"2.000000000"⟩, headerStamp := some ⟨"2.500000000"⟩ }] }

/-- A throwaway datum used to build bulk witness inputs. -/
def dummyDatum : Datum :=
  { x := JSNum.num 1, y := JSNum.num 2, value := JSValue.str "v",
    receiveTime := ⟨"0.000000000"⟩, headerStamp := none }

/-- A 2500-point dataset body, as in Scenario B. -/
def bulkData : List Datum := List.replicate 2500 dummyDatum

theorem num_add_num (a b : ℚ) : JSNum.num a + JSNum.num b = JSNum.num (a + b) := rfl

theorem num_sub_num (a b : ℚ) : JSNum.num a - JSNum.num b = JSNum.num (a - b) := by
  show JSNum.sub _ _ = _
  simp only [JSNum.sub, JSNum.neg, JSNum.add]
  rw [sub_eq_add_neg]

theorem num_mul_num (a b : ℚ) : JSNum.num a * JSNum.num b = JSNum.num (a * b) := rfl

theorem num_div_num (a b : ℚ) (h : b ≠ 0) : JSNum.num a / JSNum.num b = JSNum.num (a / b) := by
  show JSNum.div _ _ = _
  simp [JSNum.div, h]

theorem num_div_zero (a : ℚ) (h : 0 < a) : JSNum.num a / JSNum.num 0 = JSNum.inf := by
  show JSNum.div _ _ = _
  simp [JSNum.div, h, h.ne']

theorem num_mul_inf (a : ℚ) (h : a = 0) : JSNum.num a * JSNum.inf = JSNum.nan := by
  show JSNum.mul _ _ = _
  simp [JSNum.mul, h]

theorem num_add_nan (a : ℚ) : JSNum.num a + JSNum.nan = JSNum.nan := rfl

theorem num_sub_nan (a : ℚ) : JSNum.num a - JSNum.nan = JSNum.nan := rfl

/-- `generateSVG` unfolded into its five concatenated sections. -/
theorem generateSVG_decomp (datasets : List DataSet) :
    generateSVG datasets =
      svgDocHeader ++
        (xAxis ++ arrayJoin "" (xTicks (computeXMin datasets) (computeXMax datasets))) ++
        (yAxis ++ arrayJoin "" (yTicks (computeYMin datasets) (computeYMax datasets))) ++
        concatMapStr
          (datasetPath (computeXMin datasets) (computeYMin datasets) (xScaleOf datasets)
            (yScaleOf datasets)) datasets ++
        svgClose := rfl

theorem concatMapStr_append (f : α → String) (l₁ l₂ : List α) :
    concatMapStr f (l₁ ++ l₂) = concatMapStr f l₁ ++ concatMapStr f l₂ := by
  induction l₁ with
  | nil => simp [concatMapStr]
  | cons a as ih => simp [concatMapStr, ih, String.append_assoc]

/-- The `<path>` element of a dataset with no points: the coordinate list is
empty and the element degenerates to `d="M"`. -/
theorem datasetPath_of_empty (xm ym xs ys : JSNum) (ds : DataSet) (h : ds.data = []) :
    datasetPath xm ym xs ys ds =
      "\n      <path\n        style=\"opacity:0.712203;fill:none;stroke:#000000;stroke-width:2px;stop-color:#000000\"\n        d=\"M\" />" := by
  unfold datasetPath
  rw [h]
  rfl

theorem resampledData_nil : resampledData [] = [] := rfl

/-- Ceiling of a natural division, computed over `ℚ`, equals the rounded-up
natural division `(N + d - 1) / d`. -/
theorem ceil_natCast_div (N d : ℕ) (hd : 0 < d) :
    ⌈(N : ℚ) / (d : ℚ)⌉ = (((N + d - 1) / d : ℕ) : ℤ) := by
  have hdq : (0 : ℚ) < (d : ℚ) := by exact_mod_cast hd
  have hdm := Nat.div_add_mod (N + d - 1) d
  have hmod := Nat.mod_lt (N + d - 1) hd
  set m : ℕ := (N + d - 1) / d with hm
  set s : ℕ := (N + d - 1) % d with hs
  have h1 : (d : ℤ) * m + s = N + d - 1 := by
    have h0 : ((d * m + s : ℕ) : ℤ) = ((N + d - 1 : ℕ) : ℤ) := congrArg Int.ofNat hdm
    rwa [Nat.cast_add, Nat.cast_mul, Nat.cast_sub (by omega), Nat.cast_add] at h0
  have hsnn : (0 : ℤ) ≤ s := Int.natCast_nonneg s
  have hslt : (s : ℤ) < d := by exact_mod_cast hmod
  rw [Int.ceil_eq_iff]
  constructor
  · rw [lt_div_iff₀ hdq]
    have key : ((m : ℤ) - 1) * d < N := by nlinarith [h1]
    push_cast
    exact_mod_cast key
  · rw [div_le_iff₀ hdq]
    have key : (N : ℤ) ≤ m * d := by nlinarith [h1]
    exact_mod_cast key

/-- The `resampleFactor` computation `Math.ceil(dataPoints / maxPoints)` equals
the natural rounded-up division `(N + 999) / 1000`. -/
theorem resampleFactor_eq (N : ℕ) :
    JSNum.ceil (JSNum.num (N : ℚ) / JSNum.num maxPoints) =
      JSNum.num (((N + 999) / 1000 : ℕ) : ℚ) := by
  rw [maxPoints, num_div_num _ _ (by norm_num)]
  show JSNum.num _ = _
  congr 1
  have h := ceil_natCast_div N 1000 (by norm_num)
  rw [show N + 1000 - 1 = N + 999 from by omega] at h
  rw [show ((1000 : ℕ) : ℚ) = (1000 : ℚ) from by norm_num] at h
  rw [h]
  exact_mod_cast rfl

/-- The filter predicate `index % resampleFactor === 0` of `generateSVG` is
divisibility by the factor, for a positive natural factor. -/
theorem jsmod_divisor (i r : ℕ) (hr : 0 < r) :
    JSNum.jsEq (JSNum.mod (JSNum.num (i : ℚ)) (JSNum.num (r : ℚ))) (JSNum.num 0) =
      decide (r ∣ i) := by
  have hrq : ((r : ℚ)) ≠ 0 := by positivity
  have hnn : (0 : ℚ) ≤ (i : ℚ) / (r : ℚ) := by positivity
  have hdiv : ((i : ℤ)) / (r : ℤ) = ((i / r : ℕ) : ℤ) := (Int.ofNat_div i r).symm
  rw [JSNum.mod, if_neg hrq, ratTrunc, if_pos hnn, Rat.floor_natCast_div_natCast, hdiv]
  have hres : (i : ℚ) - (r : ℚ) * ((((i / r : ℕ) : ℤ)) : ℚ) = ((i % r : ℕ) : ℚ) := by
    have hdm : r * (i / r) + i % r = i := Nat.div_add_mod i r
    have hq : ((r : ℚ)) * ((i / r : ℕ) : ℚ) + ((i % r : ℕ) : ℚ) = (i : ℚ) := by
      exact_mod_cast congrArg (Nat.cast : ℕ → ℚ) hdm
    rw [Int.cast_natCast]
    linarith
  rw [hres]
  simp only [JSNum.jsEq]
  rcases Nat.decEq (i % r) 0 with h | h
  · simp [h, Nat.dvd_iff_mod_eq_zero]
  · simp [h, Nat.dvd_iff_mod_eq_zero, Nat.cast_eq_zero]

/-- `resampledData` keeps exactly the entries whose index is a multiple of the
resample factor `(N + 999) / 1000`. -/
theorem resampledData_eq (data : List Datum) :
    resampledData data =
      (data.enum.filter (fun p => decide (((data.length + 999) / 1000) ∣ p.1))).map
        Prod.snd := by
  simp only [resampledData]
  rw [resampleFactor_eq]
  rcases data with _ | ⟨d, rest⟩
  · rfl
  · congr 1
    apply List.filter_congr
    intro p _
    exact jsmod_divisor p.1 _ (by simp [List.length_cons]; omega)

/-- Counting multiples of `r` below `N`. -/
theorem countP_range_dvd (r : ℕ) (hr : 0 < r) :
    ∀ N : ℕ, (List.range N).countP (fun i => decide (r ∣ i)) = (N + r - 1) / r := by
  intro N
  induction N with
  | zero => simp [Nat.div_eq_of_lt (by omega : r - 1 < r)]
  | succ N ih =>
    rw [List.range_succ, List.countP_append, ih]
    have h1 : N + 1 + r - 1 = N + r := by omega
    have h2 : N + r = (N + r - 1) + 1 := by omega
    rw [h1, h2, Nat.succ_div]
    rw [show N + r - 1 + 1 = N + r from by omega]
    simp [List.countP_cons, Nat.dvd_add_self_right]

/-- The number of points kept by `resampledData`: `⌈N / r⌉` with
`r = (N + 999) / 1000`. -/
theorem resampledData_length (data : List Datum) :
    (resampledData data).length =
      (data.length + (data.length + 999) / 1000 - 1) / ((data.length + 999) / 1000) := by
  rcases data with _ | ⟨d, rest⟩
  · rfl
  · rw [resampledData_eq, List.length_map, ← List.countP_eq_length_filter]
    have hcomp :
        (d :: rest).enum.countP (fun p => decide (((d :: rest).length + 999) / 1000 ∣ p.1)) =
          ((d :: rest).enum.map Prod.fst).countP
            (fun i => decide (((d :: rest).length + 999) / 1000 ∣ i)) := by
      rw [List.countP_map]
      rfl
    rw [hcomp, List.enum_map_fst]
    exact countP_range_dvd _ (by simp [List.length_cons]; omega) _

/-- `resampledData` always keeps the first point. -/
theorem resampledData_head (data : List Datum) :
    (resampledData data).head? = data.head? := by
  rcases data with _ | ⟨d, rest⟩
  · rfl
  · rw [resampledData_eq, List.enum_cons]
    rw [List.filter_cons_of_pos (by simp)]
    rfl

/-- `resampledData` is an order-preserving selection: a sublist of the input. -/
theorem resampledData_sublist (data : List Datum) :
    (resampledData data).Sublist data := by
  simp only [resampledData]
  have h1 := (List.filter_sublist (l := data.enum)
    (p := fun p =>
      JSNum.jsEq
        (JSNum.mod (JSNum.num (p.1 : ℚ))
          (JSNum.ceil (JSNum.num ((data.length : ℚ)) / JSNum.num maxPoints)))
        (JSNum.num 0))).map Prod.snd
  rwa [List.enum_map_snd] at h1

/-- Datasets of at most 1000 points are kept whole (`resampleFactor = 1`). -/
theorem resampledData_id (data : List Datum) (h : data.length ≤ 1000) :
    resampledData data = data := by
  rcases data with _ | ⟨d, rest⟩
  · rfl
  · rw [resampledData_eq]
    have hr : ((d :: rest).length + 999) / 1000 = 1 := by
      simp only [List.length_cons] at h ⊢
      omega
    rw [hr]
    rw [List.filter_eq_self.mpr (by intro a _; simp)]
    exact List.enum_map_snd _

theorem foldl_collapse_const (f : JSNum → JSNum → JSNum) (a : ℚ)
    (hf : f (JSNum.num a) (JSNum.num a) = JSNum.num a) :
    ∀ xs : List JSNum, (∀ x ∈ xs, x = JSNum.num a) →
      xs.foldl f (JSNum.num a) = JSNum.num a
  | [], _ => rfl
  | x :: rest, h => by
      rw [List.foldl_cons, h x (by simp), hf]
      exact foldl_collapse_const f a hf rest (fun y hy => h y (by simp [hy]))

theorem foldl_collapse_init (f : JSNum → JSNum → JSNum) (init : JSNum) (a : ℚ)
    (hf : f (JSNum.num a) (JSNum.num a) = JSNum.num a)
    (hinit : f init (JSNum.num a) = JSNum.num a) :
    ∀ xs : List JSNum, (∀ x ∈ xs, x = JSNum.num a) →
      xs.foldl f init = if xs.isEmpty then init else JSNum.num a
  | [], _ => rfl
  | x :: rest, h => by
      rw [List.foldl_cons, h x (by simp), hinit]
      rw [foldl_collapse_const f a hf rest (fun y hy => h y (by simp [hy]))]
      rfl

theorem foldl_datasets_collapse_const (f : JSNum → JSNum → JSNum) (a : ℚ)
    (sel : Datum → JSNum)
    (hf : f (JSNum.num a) (JSNum.num a) = JSNum.num a) :
    ∀ L : List DataSet, (∀ ds ∈ L, ∀ d ∈ ds.data, sel d = JSNum.num a) →
      L.foldl (fun acc ds => (ds.data.map sel).foldl f acc) (JSNum.num a) = JSNum.num a
  | [], _ => rfl
  | ds :: rest, hall => by
      rw [List.foldl_cons]
      have hmem : ∀ x ∈ ds.data.map sel, x = JSNum.num a := by
        intro x hx
        rcases List.mem_map.mp hx with ⟨d, hd, rfl⟩
        exact hall ds (by simp) d hd
      show rest.foldl _ ((ds.data.map sel).foldl f (JSNum.num a)) = _
      rw [foldl_collapse_const f a hf _ hmem]
      exact foldl_datasets_collapse_const f a sel hf rest (fun d hd => hall d (by simp [hd]))

theorem foldl_datasets_collapse (f : JSNum → JSNum → JSNum) (init : JSNum) (a : ℚ)
    (sel : Datum → JSNum)
    (hf : f (JSNum.num a) (JSNum.num a) = JSNum.num a)
    (hinit : f init (JSNum.num a) = JSNum.num a) :
    ∀ L : List DataSet, (∀ ds ∈ L, ∀ d ∈ ds.data, sel d = JSNum.num a) →
      (∃ ds ∈ L, ds.data ≠ []) →
      L.foldl (fun acc ds => (ds.data.map sel).foldl f acc) init = JSNum.num a
  | [], _, hne => by simp at hne
  | ds :: rest, hall, hne => by
      rw [List.foldl_cons]
      have hmem : ∀ x ∈ ds.data.map sel, x = JSNum.num a := by
        intro x hx
        rcases List.mem_map.mp hx with ⟨d, hd, rfl⟩
        exact hall ds (by simp) d hd
      rcases Decidable.em (ds.data = []) with hds | hds
      · rw [hds]
        show rest.foldl _ init = _
        rcases hne with ⟨ds2, hds2, hne2⟩
        rcases List.mem_cons.mp hds2 with rfl | hmem2
        · exact absurd hds hne2
        · exact foldl_datasets_collapse f init a sel hf hinit rest
            (fun d hd => hall d (by simp [hd])) ⟨ds2, hmem2, hne2⟩
      · show rest.foldl _ ((ds.data.map sel).foldl f init) = _
        rw [foldl_collapse_init f init a hf hinit _ hmem,
          if_neg (by simpa using hds)]
        exact foldl_datasets_collapse_const f a sel hf rest
          (fun d hd => hall d (by simp [hd]))

theorem xScaleOf_degenerate (datasets : List DataSet) (a : ℚ)
    (h1 : computeXMin datasets = JSNum.num a) (h2 : computeXMax datasets = JSNum.num a) :
    xScaleOf datasets = JSNum.inf := by
  rw [xScaleOf, h1, h2, num_mul_num, num_sub_num, num_sub_num]
  rw [show svgWidth - margin * 2 = (420 : ℚ) from by norm_num [svgWidth, margin]]
  rw [show a - a = (0 : ℚ) from by ring]
  exact num_div_zero 420 (by norm_num)

theorem computeXMin_const (datasets : List DataSet) (a : ℚ)
    (hall : ∀ ds ∈ datasets, ∀ d ∈ ds.data, d.x = JSNum.num a)
    (hne : ∃ ds ∈ datasets, ds.data ≠ []) :
    computeXMin datasets = JSNum.num a :=
  foldl_datasets_collapse JSNum.min2 JSNum.inf a (fun d => d.x) (by simp [JSNum.min2]) rfl
    datasets hall hne

theorem computeXMax_const (datasets : List DataSet) (a : ℚ)
    (hall : ∀ ds ∈ datasets, ∀ d ∈ ds.data, d.x = JSNum.num a)
    (hne : ∃ ds ∈ datasets, ds.data ≠ []) :
    computeXMax datasets = JSNum.num a :=
  foldl_datasets_collapse JSNum.max2 JSNum.negInf a (fun d => d.x) (by simp [JSNum.max2]) rfl
    datasets hall hne

theorem xScaleOf_num (datasets : List DataSet) (a b : ℚ)
    (h1 : computeXMin datasets = JSNum.num a) (h2 : computeXMax datasets = JSNum.num b)
    (hne : b - a ≠ 0) :
    xScaleOf datasets = JSNum.num ((svgWidth - margin * 2) / (b - a)) := by
  rw [xScaleOf, h1, h2, num_mul_num, num_sub_num, num_sub_num, num_div_num _ _ hne]

theorem yScaleOf_num (datasets : List DataSet) (a b : ℚ)
    (h1 : computeYMin datasets = JSNum.num a) (h2 : computeYMax datasets = JSNum.num b)
    (hne : b - a ≠ 0) :
    yScaleOf datasets = JSNum.num ((svgHeight - margin * 2) / (b - a)) := by
  rw [yScaleOf, h1, h2, num_mul_num, num_sub_num, num_sub_num, num_div_num _ _ hne]

theorem mapX_num (xm s x : ℚ) :
    mapX (JSNum.num xm) (JSNum.num s) (JSNum.num x) = JSNum.num (margin + (x - xm) * s) := by
  simp only [mapX, num_sub_num, num_mul_num, num_add_num]

theorem mapY_num (ym s y : ℚ) :
    mapY (JSNum.num ym) (JSNum.num s) (JSNum.num y) =
      JSNum.num (svgHeight - margin - (y - ym) * s) := by
  simp only [mapY, num_sub_num, num_mul_num]

theorem mapX_degenerate (a : ℚ) :
    mapX (JSNum.num a) JSNum.inf (JSNum.num a) = JSNum.nan := by
  rw [mapX, num_sub_num, show a - a = (0 : ℚ) from by ring, num_mul_inf 0 rfl, num_add_nan]

theorem csvDataRows_length (datasets : List DataSet) :
    (csvDataRows datasets).length = (datasets.map (fun ds => ds.data.length)).sum := by
  rw [csvDataRows, List.length_flatten, List.map_map]
  apply congrArg List.sum
  apply List.map_congr_left
  intro ds _
  simp [Function.comp]

theorem xTick_eq_spec (xm xM : JSNum) (i : ℕ) : xTick xm xM i = xTickSpec xm xM i := by
  simp only [xTick, xTickSpec]
  rw [show xTickSize = (svgWidth - 2 * margin) / 10 from by rw [xTickSize]; ring]

theorem yTick_eq_spec (ym yM : JSNum) (i : ℕ) : yTick ym yM i = yTickSpec ym yM i := by
  simp only [yTick, yTickSpec]
  rw [show yTickSize = (svgHeight - 2 * margin) / 10 from by rw [yTickSize]; ring]

theorem arrayJoin_cons_exists (sep a : String) (l : List String) :
    ∃ t, arrayJoin sep (a :: l) = a ++ t := by
  cases l with
  | nil => exact ⟨"", (String.append_empty a).symm⟩
  | cons b rest =>
      exact ⟨sep ++ arrayJoin sep (b :: rest), by simp [arrayJoin, String.append_assoc]⟩

theorem jsNumToString_zero : jsNumToString (JSNum.num 0) = "0" := by
  rw [jsNumToString]
  norm_num
  rfl

theorem jsNumToString_ten : jsNumToString (JSNum.num 10) = "10" := by
  rw [jsNumToString]
  norm_num
  rfl

/-- C9: `downloadCSV` and `downloadSVG` invoke the external download sink exactly
once per call, with a single-item list whose payload wraps the corresponding
encoder's output with the fixed MIME type (`text/csv` / `image/svg+xml`) and the
fixed filename (`plot_data.csv` / `plot_data.svg`). -/
theorem claim9 (datasets : List DataSet) (xAxisVal : String) :
    downloadCSV datasets xAxisVal =
      [[⟨⟨generateCSV datasets xAxisVal, "text/csv;charset=utf-8;"⟩, "plot_data.csv"⟩]] ∧
    downloadSVG datasets =
      [[⟨⟨generateSVG datasets, "image/svg+xml;charset=utf-8;"⟩, "plot_data.svg"⟩]] ∧
    (downloadCSV datasets xAxisVal).length = 1 ∧
    (downloadSVG datasets).length = 1 :=
  ⟨rfl, rfl, rfl, rfl⟩

/-- C4: for a nonempty dataset the stride decimation of `generateSVG` keeps
exactly the points at indices divisible by `r = ⌈N / 1000⌉` (so `0, r, 2r, …`),
keeps `⌈N / r⌉ = (N + r - 1) / r` points in total, always keeps the first point,
and preserves the input order (the kept points form a sublist). -/
theorem claim4 (data : List Datum) (h : 0 < data.length) :
    resampledData data =
      (data.enum.filter (fun p => decide (((data.length + 999) / 1000) ∣ p.1))).map
        Prod.snd ∧
    (resampledData data).length =
      (data.length + (data.length + 999) / 1000 - 1) / ((data.length + 999) / 1000) ∧
    (resampledData data).head? = data.head? ∧
    (resampledData data).Sublist data :=
  ⟨resampledData_eq data, resampledData_length data, resampledData_head data,
    resampledData_sublist data⟩

/-- Witness for C4 at Scenario B: 2500 points give `resampleFactor = 3` and
834 rendered points, and the first point is kept. -/
theorem claim4_witness :
    0 < bulkData.length ∧ (2500 + 999) / 1000 = 3 ∧
    (resampledData bulkData).length = 834 ∧
    (resampledData bulkData).head? = bulkData.head? := by
  have hlen : bulkData.length = 2500 := by rw [bulkData, List.length_replicate]
  have h : 0 < bulkData.length := by rw [hlen]; norm_num
  refine ⟨h, by norm_num, ?_, (claim4 bulkData h).2.2.1⟩
  rw [(claim4 bulkData h).2.1, hlen]

/-- C3: the table holds one data row per input point, dataset order then point
order (`csvDataRows` is the ordered flattening), the row for each datum is
`[x, formatTime(receiveTime), formatTime(headerStamp) or "", label or absent,
value]`, and `generateCSV` is the header row followed by exactly these rows. -/
theorem claim3 (datasets : List DataSet) (xAxisVal : String)
    (h : getCVSColName xAxisVal ≠ none) :
    (csvDataRows datasets).length = (datasets.map (fun ds => ds.data.length)).sum ∧
    csvDataRows datasets =
      (datasets.map (fun ds => ds.data.map (fun d =>
        [CSVField.num d.x, CSVField.str (formatTimeRaw d.receiveTime),
         CSVField.str (match d.headerStamp with | some t => formatTimeRaw t | none => ""),
         (match ds.label with | some l => CSVField.str l | none => CSVField.undef),
         d.value.toField]))).flatten ∧
    csvCombinedLines datasets xAxisVal = headLine xAxisVal :: csvDataRows datasets ∧
    generateCSV datasets xAxisVal =
      arrayJoin "\n" ((headLine xAxisVal :: csvDataRows datasets).map rowToString) := by
  exact ⟨csvDataRows_length datasets, rfl, rfl, rfl⟩

/-- Witness for C3 at Scenario A's dataset with the `index` axis. -/
theorem claim3_witness :
    getCVSColName "index" ≠ none ∧
    (csvDataRows [scenarioAInput]).length =
      ([scenarioAInput].map (fun ds => ds.data.length)).sum := by
  have h : getCVSColName "index" ≠ none := by simp [getCVSColName]
  exact ⟨h, (claim3 [scenarioAInput] "index" h).1⟩

/-- C6: both tick arrays have exactly eleven entries (indices 0 through 10), each
tick equals the spec-side template (position `margin + i * ((width - 2*margin)/10)`,
label the interpolated data value, one decimal place on the x axis and two on the
y axis), and the rendered document contains both joined tick arrays. -/
theorem claim6 (datasets : List DataSet) :
    (xTicks (computeXMin datasets) (computeXMax datasets)).length = 11 ∧
    (yTicks (computeYMin datasets) (computeYMax datasets)).length = 11 ∧
    xTicks (computeXMin datasets) (computeXMax datasets) =
      (List.range 11).map (xTickSpec (computeXMin datasets) (computeXMax datasets)) ∧
    yTicks (computeYMin datasets) (computeYMax datasets) =
      (List.range 11).map (yTickSpec (computeYMin datasets) (computeYMax datasets)) ∧
    ∃ p q r, generateSVG datasets =
      p ++ arrayJoin "" (xTicks (computeXMin datasets) (computeXMax datasets)) ++ q ++
        arrayJoin "" (yTicks (computeYMin datasets) (computeYMax datasets)) ++ r := by
  refine ⟨by simp [xTicks], by simp [yTicks], ?_, ?_, ?_⟩
  · rw [xTicks]
    exact List.map_congr_left (fun i _ => xTick_eq_spec _ _ i)
  · rw [yTicks]
    exact List.map_congr_left (fun i _ => yTick_eq_spec _ _ i)
  · refine ⟨svgDocHeader ++ xAxis, yAxis,
      concatMapStr
        (datasetPath (computeXMin datasets) (computeYMin datasets) (xScaleOf datasets)
          (yScaleOf datasets)) datasets ++ svgClose, ?_⟩
    rw [generateSVG_decomp]
    simp [String.append_assoc]

/-- C5: with a non-degenerate bounding box, the coordinate mapping of
`generateSVG` sends `(xMin, yMin)` to `(margin, svgHeight - margin) = (40, 460)`
and `(xMax, yMax)` to `(svgWidth - margin, margin) = (460, 40)`. -/
theorem claim5 (datasets : List DataSet) (xm xM ym yM : ℚ)
    (hx1 : computeXMin datasets = JSNum.num xm) (hx2 : computeXMax datasets = JSNum.num xM)
    (hy1 : computeYMin datasets = JSNum.num ym) (hy2 : computeYMax datasets = JSNum.num yM)
    (hxlt : xm < xM) (hylt : ym < yM) :
    mapX (computeXMin datasets) (xScaleOf datasets) (JSNum.num xm) = JSNum.num 40 ∧
    mapY (computeYMin datasets) (yScaleOf datasets) (JSNum.num ym) = JSNum.num 460 ∧
    mapX (computeXMin datasets) (xScaleOf datasets) (JSNum.num xM) = JSNum.num 460 ∧
    mapY (computeYMin datasets) (yScaleOf datasets) (JSNum.num yM) = JSNum.num 40 := by
  have hxne : xM - xm ≠ 0 := sub_ne_zero_of_ne hxlt.ne'
  have hyne : yM - ym ≠ 0 := sub_ne_zero_of_ne hylt.ne'
  have hxs := xScaleOf_num datasets xm xM hx1 hx2 hxne
  have hys := yScaleOf_num datasets ym yM hy1 hy2 hyne
  refine ⟨?_, ?_, ?_, ?_⟩
  · rw [hx1, hxs, mapX_num]
    congr 1
    rw [margin]
    field_simp
  · rw [hy1, hys, mapY_num]
    congr 1
    rw [svgHeight, margin]
    field_simp
    norm_num
  · rw [hx1, hxs, mapX_num]
    congr 1
    rw [margin, svgWidth]
    field_simp
    ring
  · rw [hy1, hys, mapY_num]
    congr 1
    rw [svgHeight, margin]
    field_simp
    ring

/-- Witness for C5 at the Scenario A dataset (box `[0,10] × [0,10]`). -/
theorem claim5_witness :
    computeXMin [scenarioAInput] = JSNum.num 0 ∧
    computeXMax [scenarioAInput] = JSNum.num 10 ∧
    computeYMin [scenarioAInput] = JSNum.num 0 ∧
    computeYMax [scenarioAInput] = JSNum.num 10 ∧
    mapX (computeXMin [scenarioAInput]) (xScaleOf [scenarioAInput]) (JSNum.num 0) =
      JSNum.num 40 ∧
    mapX (computeXMin [scenarioAInput]) (xScaleOf [scenarioAInput]) (JSNum.num 10) =
      JSNum.num 460 := by
  have hx1 : computeXMin [scenarioAInput] = JSNum.num 0 := by
    norm_num [computeXMin, scenarioAInput, JSNum.min2]
  have hx2 : computeXMax [scenarioAInput] = JSNum.num 10 := by
    norm_num [computeXMax, scenarioAInput, JSNum.max2]
  have hy1 : computeYMin [scenarioAInput] = JSNum.num 0 := by
    norm_num [computeYMin, scenarioAInput, JSNum.min2]
  have hy2 : computeYMax [scenarioAInput] = JSNum.num 10 := by
    norm_num [computeYMax, scenarioAInput, JSNum.max2]
  have h := claim5 [scenarioAInput] 0 10 0 10 hx1 hx2 hy1 hy2 (by norm_num) (by norm_num)
  exact ⟨hx1, hx2, hy1, hy2, h.1, h.2.2.1⟩

theorem getCSVRow_eq (label : Option String) (d : Datum) :
    getCSVRow label d =
      [CSVField.num d.x, CSVField.str (formatTimeRaw d.receiveTime),
       CSVField.str (match d.headerStamp with | some t => formatTimeRaw t | none => ""),
       (match label with | some l => CSVField.str l | none => CSVField.undef),
       d.value.toField] := rfl

theorem rowToString_num_head (n : JSNum) (r1 r2 r3 r4 : CSVField) :
    rowToString [CSVField.num n, r1, r2, r3, r4] =
      jsNumToString n ++ "," ++ rowToString [r1, r2, r3, r4] := rfl

theorem rowToString_str_head (c : String) (r1 r2 r3 r4 : CSVField) :
    rowToString [CSVField.str c, r1, r2, r3, r4] =
      c ++ "," ++ rowToString [r1, r2, r3, r4] := rfl

/-- C7: with a recognized axis kind, the empty dataset list encodes to exactly the
header row; Scenario A (one dataset with points at `x = 0` and `x = 10`, axis
`index`) gives the header `"index,receive time,header.stamp,topic,value"` followed
by exactly two data rows whose first fields are `0` and `10`. -/
theorem claim7 (xAxisVal col : String) (h : getCVSColName xAxisVal = some col)
    (ds : DataSet) (d1 d2 : Datum) (hds : ds.data = [d1, d2])
    (h1 : d1.x = JSNum.num 0) (h2 : d2.x = JSNum.num 10) :
    generateCSV [] xAxisVal = rowToString (headLine xAxisVal) ∧
    rowToString (headLine xAxisVal) = col ++ ",receive time,header.stamp,topic,value" ∧
    generateCSV [ds] "index" =
      "index,receive time,header.stamp,topic,value" ++ "\n" ++
        (rowToString (getCSVRow ds.label d1) ++ "\n" ++ rowToString (getCSVRow ds.label d2)) ∧
    (getCSVRow ds.label d1).head? = some (CSVField.num (JSNum.num 0)) ∧
    (getCSVRow ds.label d2).head? = some (CSVField.num (JSNum.num 10)) ∧
    (∃ t, rowToString (getCSVRow ds.label d1) = "0," ++ t) ∧
    (∃ t, rowToString (getCSVRow ds.label d2) = "10," ++ t) := by
  have hHL : headLine xAxisVal =
      [CSVField.str col, CSVField.str "receive time", CSVField.str "header.stamp",
       CSVField.str "topic", CSVField.str "value"] := by
    rw [headLine, h]
  have hrows : csvDataRows [ds] = [getCSVRow ds.label d1, getCSVRow ds.label d2] := by
    simp [csvDataRows, hds]
  refine ⟨rfl, ?_, ?_, ?_, ?_, ?_, ?_⟩
  · rw [hHL, rowToString_str_head, String.append_assoc]
    exact congrArg (fun s => col ++ s) (by rfl)
  · simp only [generateCSV, csvCombinedLines]
    rw [hrows]
    rfl
  · rw [getCSVRow_eq, h1]
    rfl
  · rw [getCSVRow_eq, h2]
    rfl
  · refine ⟨rowToString
      [CSVField.str (formatTimeRaw d1.receiveTime),
       CSVField.str (match d1.headerStamp with | some t => formatTimeRaw t | none => ""),
       (match ds.label with | some l => CSVField.str l | none => CSVField.undef),
       d1.value.toField], ?_⟩
    rw [getCSVRow_eq, h1, rowToString_num_head, jsNumToString_zero, String.append_assoc]
    exact congrArg (fun s => "0" ++ s) (by rfl)
  · refine ⟨rowToString
      [CSVField.str (formatTimeRaw d2.receiveTime),
       CSVField.str (match d2.headerStamp with | some t => formatTimeRaw t | none => ""),
       (match ds.label with | some l => CSVField.str l | none => CSVField.undef),
       d2.value.toField], ?_⟩
    rw [getCSVRow_eq, h2, rowToString_num_head, jsNumToString_ten, String.append_assoc]
    exact congrArg (fun s => "10" ++ s) (by rfl)

/-- Witness for C7 at the concrete Scenario A input. -/
theorem claim7_witness :
    getCVSColName "index" = some "index" ∧
    scenarioAInput.data =
      [scenarioAInput.data.getD 0 dummyDatum, scenarioAInput.data.getD 1 dummyDatum] ∧
    generateCSV [] "index" = rowToString (headLine "index") ∧
    (∃ t, rowToString
        (getCSVRow scenarioAInput.label (scenarioAInput.data.getD 0 dummyDatum)) =
      "0," ++ t) := by
  have h : getCVSColName "index" = some "index" := rfl
  have hds : scenarioAInput.data =
      [scenarioAInput.data.getD 0 dummyDatum, scenarioAInput.data.getD 1 dummyDatum] := rfl
  have h1 : (scenarioAInput.data.getD 0 dummyDatum).x = JSNum.num 0 := rfl
  have h2 : (scenarioAInput.data.getD 1 dummyDatum).x = JSNum.num 10 := rfl
  have hc := claim7 "index" "index" h scenarioAInput _ _ hds h1 h2
  exact ⟨h, hds, hc.1, hc.2.2.2.2.2.1⟩

/-- Counterexample to C2 as stated: at the out-of-enum axis value `"velocity"`
the encoder raises no `ConfigurationError` — the column lookup yields `undefined`
and `generateCSV` returns an ordinary table whose header's first column is empty. -/
theorem claim2_counterexample :
    getCVSColName "velocity" = none ∧
    generateCSV [] "velocity" = ",receive time,header.stamp,topic,value" :=
  ⟨rfl, rfl⟩

/-- C2 amended: the header's first column label follows the fixed mapping for the
four recognized axis kinds; for every other runtime value the lookup yields
`undefined` (`none`), no error is raised, and the emitted header renders the first
column as the empty string. -/
theorem claim2_amended :
    getCVSColName "timestamp" = some "elapsed time" ∧
    getCVSColName "index" = some "index" ∧
    getCVSColName "custom" = some "x value" ∧
    getCVSColName "currentCustom" = some "x value" ∧
    (∀ xAxisVal : String, xAxisVal ≠ "timestamp" → xAxisVal ≠ "index" →
      xAxisVal ≠ "custom" → xAxisVal ≠ "currentCustom" →
      getCVSColName xAxisVal = none ∧
      headLine xAxisVal =
        [CSVField.undef, CSVField.str "receive time", CSVField.str "header.stamp",
         CSVField.str "topic", CSVField.str "value"] ∧
      rowToString (headLine xAxisVal) = ",receive time,header.stamp,topic,value" ∧
      ∀ datasets, ∃ t, generateCSV datasets xAxisVal =
        ",receive time,header.stamp,topic,value" ++ t) := by
  refine ⟨rfl, rfl, rfl, rfl, ?_⟩
  intro ax hn1 hn2 hn3 hn4
  have hcol : getCVSColName ax = none := by
    rw [getCVSColName, if_neg hn1, if_neg hn2, if_neg hn3, if_neg hn4]
  have hHL : headLine ax =
      [CSVField.undef, CSVField.str "receive time", CSVField.str "header.stamp",
       CSVField.str "topic", CSVField.str "value"] := by
    rw [headLine, hcol]
  refine ⟨hcol, hHL, by rw [hHL]; rfl, ?_⟩
  intro datasets
  rcases arrayJoin_cons_exists "\n" (rowToString (headLine ax))
      ((csvDataRows datasets).map rowToString) with ⟨t, ht⟩
  refine ⟨t, ?_⟩
  rw [generateCSV, csvCombinedLines, List.map_cons, ht, hHL]
  rfl

/-- Witness for C2 at the out-of-enum axis value `"velocity"`. -/
theorem claim2_witness :
    getCVSColName "timestamp" = some "elapsed time" ∧
    getCVSColName "velocity" = none ∧
    rowToString (headLine "velocity") = ",receive time,header.stamp,topic,value" := by
  have h := claim2_amended
  have hv := h.2.2.2.2 "velocity" (by decide) (by decide) (by decide) (by decide)
  exact ⟨h.1, hv.1, hv.2.2.1⟩

theorem concatMapStr_nil (f : α → String) : concatMapStr f [] = "" := rfl

/-- C8: on inputs with zero points the renderer still returns a complete document
(header through closing tag — the computation is total and never raises), every
dataset contributes only the empty `d="M"` path, and for the empty dataset list
the document consists of header, axes and ticks only, with no path element at all. -/
theorem claim8 (datasets : List DataSet) (h : ∀ ds ∈ datasets, ds.data = []) :
    (∃ mid, generateSVG datasets = svgDocHeader ++ mid ++ svgClose) ∧
    (∀ ds ∈ datasets,
      datasetPath (computeXMin datasets) (computeYMin datasets) (xScaleOf datasets)
          (yScaleOf datasets) ds =
        "\n      <path\n        style=\"opacity:0.712203;fill:none;stroke:#000000;stroke-width:2px;stop-color:#000000\"\n        d=\"M\" />") ∧
    generateSVG [] =
      svgDocHeader ++ (xAxis ++ arrayJoin "" (xTicks JSNum.inf JSNum.negInf)) ++
        (yAxis ++ arrayJoin "" (yTicks JSNum.inf JSNum.negInf)) ++ svgClose := by
  refine ⟨?_, ?_, ?_⟩
  · refine ⟨(xAxis ++ arrayJoin "" (xTicks (computeXMin datasets) (computeXMax datasets))) ++
      ((yAxis ++ arrayJoin "" (yTicks (computeYMin datasets) (computeYMax datasets))) ++
        concatMapStr
          (datasetPath (computeXMin datasets) (computeYMin datasets) (xScaleOf datasets)
            (yScaleOf datasets)) datasets), ?_⟩
    rw [generateSVG_decomp]
    simp [String.append_assoc]
  · intro ds hds
    exact datasetPath_of_empty _ _ _ _ ds (h ds hds)
  · rw [generateSVG_decomp]
    rw [show computeXMin [] = JSNum.inf from rfl, show computeXMax [] = JSNum.negInf from rfl,
      show computeYMin [] = JSNum.inf from rfl, show computeYMax [] = JSNum.negInf from rfl,
      concatMapStr_nil, String.append_empty]

/-- Witness for C8 at the empty dataset list. -/
theorem claim8_witness :
    (∀ ds ∈ ([] : List DataSet), ds.data = []) ∧
    ∃ mid, generateSVG [] = svgDocHeader ++ mid ++ svgClose := by
  have h : ∀ ds ∈ ([] : List DataSet), ds.data = [] := by simp
  exact ⟨h, (claim8 [] h).1⟩

/-- C10: a zero-point dataset inside a (possibly nonempty) list still renders
without failure: its resample factor is `ceil(0/1000) = 0`, the stride predicate
`index % 0 === 0` is false at every index (`NaN === 0`), no points are kept,
and a path element is still emitted for the dataset — with the empty coordinate
list `d="M"` — so the document keeps one path element per input dataset. -/
theorem claim10 (preL postL : List DataSet) (ds : DataSet) (h : ds.data = []) :
    resampledData ds.data = [] ∧
    JSNum.ceil (JSNum.num ((ds.data.length : ℚ)) / JSNum.num maxPoints) = JSNum.num 0 ∧
    (∀ i : ℕ, JSNum.jsEq (JSNum.mod (JSNum.num (i : ℚ)) (JSNum.num 0)) (JSNum.num 0) = false) ∧
    (∀ xm ym xs ys, datasetPath xm ym xs ys ds =
      "\n      <path\n        style=\"opacity:0.712203;fill:none;stroke:#000000;stroke-width:2px;stop-color:#000000\"\n        d=\"M\" />") ∧
    (∀ ds2 : DataSet, ∀ xm ym xs ys, ∃ t, datasetPath xm ym xs ys ds2 =
      "\n      <path\n        style=\"opacity:0.712203;fill:none;stroke:#000000;stroke-width:2px;stop-color:#000000\"\n        d=\"M" ++ t) ∧
    (∃ a b, generateSVG (preL ++ ds :: postL) =
      a ++ datasetPath (computeXMin (preL ++ ds :: postL)) (computeYMin (preL ++ ds :: postL))
          (xScaleOf (preL ++ ds :: postL)) (yScaleOf (preL ++ ds :: postL)) ds ++ b) := by
  refine ⟨by rw [h, resampledData_nil], ?_, ?_, ?_, ?_, ?_⟩
  · rw [h]
    have h0 := resampleFactor_eq 0
    simpa using h0
  · intro i
    rw [JSNum.mod, if_pos rfl]
    rfl
  · intro xm ym xs ys
    exact datasetPath_of_empty xm ym xs ys ds h
  · intro ds2 xm ym xs ys
    refine ⟨arrayJoin " "
        ((resampledData ds2.data).map
          (pathPoint xm ym xs ys)) ++ "\" />", ?_⟩
    simp only [datasetPath]
    rw [String.append_assoc]
  · refine ⟨svgDocHeader ++
      (xAxis ++ arrayJoin "" (xTicks (computeXMin (preL ++ ds :: postL))
        (computeXMax (preL ++ ds :: postL)))) ++
      (yAxis ++ arrayJoin "" (yTicks (computeYMin (preL ++ ds :: postL))
        (computeYMax (preL ++ ds :: postL)))) ++
      concatMapStr
        (datasetPath (computeXMin (preL ++ ds :: postL)) (computeYMin (preL ++ ds :: postL))
          (xScaleOf (preL ++ ds :: postL)) (yScaleOf (preL ++ ds :: postL))) preL,
      concatMapStr
        (datasetPath (computeXMin (preL ++ ds :: postL)) (computeYMin (preL ++ ds :: postL))
          (xScaleOf (preL ++ ds :: postL)) (yScaleOf (preL ++ ds :: postL))) postL ++
        svgClose, ?_⟩
    rw [generateSVG_decomp, concatMapStr_append]
    simp [concatMapStr, String.append_assoc]

/-- Witness for C10 at a singleton list holding one empty dataset. -/
theorem claim10_witness :
    ({ label := none, data := [] } : DataSet).data = [] ∧
    resampledData (({ label := none, data := [] } : DataSet).data) = [] ∧
    (∀ i : ℕ,
      JSNum.jsEq (JSNum.mod (JSNum.num (i : ℚ)) (JSNum.num 0)) (JSNum.num 0) = false) := by
  have h := claim10 [] [] { label := none, data := [] } rfl
  exact ⟨rfl, h.1, h.2.2.1⟩

/-- C1 amended: on a zero-width bounding box (all points share one `x`)
`generateSVG` neither raises an error nor applies a fallback — it computes
`xScale = Infinity` and silently renders every point of such an input with a
`NaN` horizontal coordinate, so `NaN` appears in the emitted path data. -/
theorem claim1_amended (datasets : List DataSet) (a : ℚ)
    (hall : ∀ ds ∈ datasets, ∀ d ∈ ds.data, d.x = JSNum.num a)
    (hne : ∃ ds ∈ datasets, ds.data ≠ []) :
    computeXMin datasets = JSNum.num a ∧
    computeXMax datasets = JSNum.num a ∧
    xScaleOf datasets = JSNum.inf ∧
    (∀ ds ∈ datasets, ∀ d ∈ ds.data,
      mapX (computeXMin datasets) (xScaleOf datasets) d.x = JSNum.nan) ∧
    (∀ ym ys, ∀ ds ∈ datasets, ∀ d ∈ ds.data,
      ∃ t, pathPoint (computeXMin datasets) ym (xScaleOf datasets) ys d = "NaN," ++ t) := by
  have h1 := computeXMin_const datasets a hall hne
  have h2 := computeXMax_const datasets a hall hne
  have h3 := xScaleOf_degenerate datasets a h1 h2
  have hmap : ∀ ds ∈ datasets, ∀ d ∈ ds.data,
      mapX (computeXMin datasets) (xScaleOf datasets) d.x = JSNum.nan := by
    intro ds hds d hd
    rw [hall ds hds d hd, h1, h3, mapX_degenerate]
  refine ⟨h1, h2, h3, hmap, ?_⟩
  intro ym ys ds hds d hd
  refine ⟨jsNumToString (mapY ym ys d.y), ?_⟩
  rw [pathPoint, hmap ds hds d hd]
  rw [show jsNumToString JSNum.nan = "NaN" from rfl]
  rw [show ("NaN" : String) ++ "," = "NaN," from rfl]

/-- Counterexample to C1 as stated: at the Scenario C input (two points with
identical `x`) the rendered document contains the substring `"NaN"` — invalid
numeric coordinates are emitted silently instead of an error or a fallback. -/
theorem claim1_counterexample :
    ∃ a b, generateSVG degenerateInput = a ++ "NaN" ++ b := by
  have hx1 : computeXMin degenerateInput = JSNum.num 5 := by
    norm_num [computeXMin, degenerateInput, degDataset, degD1, degD2, JSNum.min2]
  have hx2 : computeXMax degenerateInput = JSNum.num 5 := by
    norm_num [computeXMax, degenerateInput, degDataset, degD1, degD2, JSNum.max2]
  have hy1 : computeYMin degenerateInput = JSNum.num 0 := by
    norm_num [computeYMin, degenerateInput, degDataset, degD1, degD2, JSNum.min2]
  have hy2 : computeYMax degenerateInput = JSNum.num 10 := by
    norm_num [computeYMax, degenerateInput, degDataset, degD1, degD2, JSNum.max2]
  have hxs : xScaleOf degenerateInput = JSNum.inf := xScaleOf_degenerate _ 5 hx1 hx2
  have hys : yScaleOf degenerateInput = JSNum.num 42 := by
    rw [yScaleOf_num degenerateInput 0 10 hy1 hy2 (by norm_num)]
    norm_num [svgHeight, margin]
  have hp1 : pathPoint (JSNum.num 5) (JSNum.num 0) JSNum.inf (JSNum.num 42) degD1 =
      "NaN,460" := by
    rw [pathPoint, show degD1.x = JSNum.num 5 from rfl, show degD1.y = JSNum.num 0 from rfl,
      mapX_degenerate, mapY_num,
      show svgHeight - margin - (0 - 0) * 42 = (460 : ℚ) from by norm_num [svgHeight, margin],
      show jsNumToString JSNum.nan = "NaN" from rfl,
      show jsNumToString (JSNum.num 460) = "460" from by rw [jsNumToString]; norm_num; rfl]
    rfl
  have hp2 : pathPoint (JSNum.num 5) (JSNum.num 0) JSNum.inf (JSNum.num 42) degD2 =
      "NaN,40" := by
    rw [pathPoint, show degD2.x = JSNum.num 5 from rfl, show degD2.y = JSNum.num 10 from rfl,
      mapX_degenerate, mapY_num,
      show svgHeight - margin - (10 - 0) * 42 = (40 : ℚ) from by norm_num [svgHeight, margin],
      show jsNumToString JSNum.nan = "NaN" from rfl,
      show jsNumToString (JSNum.num 40) = "40" from by rw [jsNumToString]; norm_num; rfl]
    rfl
  have hdp : datasetPath (JSNum.num 5) (JSNum.num 0) JSNum.inf (JSNum.num 42) degDataset =
      ("\n      <path\n        style=\"opacity:0.712203;fill:none;stroke:#000000;stroke-width:2px;stop-color:#000000\"\n        d=\"M" ++ "NaN") ++ (",460 NaN,40" ++ "\" />") := by
    simp only [datasetPath]
    rw [show degDataset.data = [degD1, degD2] from rfl,
      resampledData_id _ (by norm_num), List.map_cons, List.map_cons, List.map_nil, hp1, hp2]
    rfl
  refine ⟨svgDocHeader ++ (xAxis ++ arrayJoin "" (xTicks (JSNum.num 5) (JSNum.num 5))) ++
      (yAxis ++ arrayJoin "" (yTicks (JSNum.num 0) (JSNum.num 10))) ++
      "\n      <path\n        style=\"opacity:0.712203;fill:none;stroke:#000000;stroke-width:2px;stop-color:#000000\"\n        d=\"M",
    ",460 NaN,40" ++ "\" />" ++ svgClose, ?_⟩
  rw [generateSVG_decomp, hx1, hx2, hy1, hy2, hxs, hys]
  rw [show degenerateInput = [degDataset] from rfl]
  simp only [concatMapStr, hdp, String.append_empty]
  simp only [String.append_assoc]

/-- Witness for the amended C1 at the Scenario C input. -/
theorem claim1_witness :
    (∀ ds ∈ degenerateInput, ∀ d ∈ ds.data, d.x = JSNum.num 5) ∧
    (∃ ds ∈ degenerateInput, ds.data ≠ []) ∧
    xScaleOf degenerateInput = JSNum.inf := by
  have hall : ∀ ds ∈ degenerateInput, ∀ d ∈ ds.data, d.x = JSNum.num 5 := by
    intro ds hds d hd
    simp only [degenerateInput, List.mem_singleton] at hds
    subst hds
    rw [show degDataset.data = [degD1, degD2] from rfl] at hd
    simp only [List.mem_cons, List.not_mem_nil, or_false] at hd
    rcases hd with rfl | rfl
    · rfl
    · rfl
  have hne : ∃ ds ∈ degenerateInput, ds.data ≠ [] := by
    refine ⟨degDataset, by simp [degenerateInput], by simp [degDataset]⟩
  exact ⟨hall, hne, (claim1_amended degenerateInput 5 hall hne).2.2.1⟩
